import Mathlib

/-!
Verification of the iyzico payment-provider module (payment_iyzico).

This file gives a shallow embedding, in Lean 4, of the parts of the module
that the specification talks about:

* `src/const.py`    : the static tables (STATUS_MAPPING, ERROR_CODES, ...)
* `src/utils.py`    : `generate_authorization_header`, `format_phone`,
                      `get_error_message`
* `src/models/payment_transaction.py` : `_process_notification_data`
                      (the reconciler) and the token-reuse logic of
                      `_get_specific_rendering_values`
* `src/models/payment_provider.py`    : `_iyzico_make_request`
* `src/controllers/main.py`           : `_verify_webhook_signature`

Python strings are embedded as Lean `String`, byte strings as `List Nat`
(every element kept below 256 by construction), `dict.get` results as
`Option`, Python exceptions as an explicit exception type returned through
`Except`.  Python truthiness of optional strings (used by `or`, `if x:`)
is modelled by `truthy`.  All definitions are executable.
-/

/-! ## Python-style helpers -/

/-- Truthiness of an optional Python string: `None` and `""` are falsy. -/
def truthy : Option String → Bool
  | none => false
  | some s => s ≠ ""

/-- Python `a or b` on two optional strings: `a` when truthy, else `b`. -/
def pyOr (a b : Option String) : Option String :=
  if truthy a then a else b

/-- Python `s or d` where `d` is a plain default string (used for
`state_message or _("Payment failed.")`). -/
def orDefault (s : Option String) (d : String) : String :=
  match s with
  | some s => if s = "" then d else s
  | none => d

/-- Python `str(x)` of an optional string as it appears in `%`-style
formatting: `None` renders as `"None"`. -/
def pyStr : Option String → String
  | some s => s
  | none => "None"

/-! ## `src/const.py` -/

/-- Transcription of `const.STATUS_MAPPING` from `src/const.py`
(lines 79-86): an association list from transaction states to the tuples
of iyzico payment statuses. -/
def STATUS_MAPPING : List (String × List String) :=
  [ ("draft", ["INIT_THREEDS", "CALLBACK_THREEDS"]),
    ("pending", ["CALLBACK_THREEDS"]),
    ("authorized", []),
    ("done", ["SUCCESS", "success"]),
    ("cancel", ["FAILURE", "failure"]),
    ("error", ["FAILURE", "failure"]) ]

/-- Lookup of one code set, `const.STATUS_MAPPING[key]`. -/
def statusCodes (key : String) : List String :=
  (STATUS_MAPPING.lookup key).getD []

/-- Transcription of `const.ERROR_CODES` from `src/const.py`
(lines 102-160): iyzico error codes mapped to user-facing messages. -/
def ERROR_CODES : List (String × String) :=
  [ ("10005", "İşlem onaylanmadı. Lütfen bankanızla iletişime geçin. (Transaction not approved)"),
    ("10012", "Geçersiz kart numarası. Lütfen kartınızı kontrol edin. (Invalid card number)"),
    ("10034", "Dolandırıcılık şüphesi. Lütfen bankanızla iletişime geçin. (Fraud suspicion)"),
    ("10041", "Kayıp kart. Bu kart kullanılamaz. (Lost card)"),
    ("10043", "Çalıntı kart. Bu kart kullanılamaz. (Stolen card)"),
    ("10051", "Kartınızda yetersiz bakiye bulunmaktadır. (Insufficient funds)"),
    ("10054", "Kartınızın süresi dolmuş. Lütfen başka bir kart kullanın. (Expired card)"),
    ("10057", "Kart sahibi bu işlemi gerçekleştiremez. (Card holder cannot perform this transaction)"),
    ("10058", "Terminal bu işlem için yetkili değil. (Terminal not authorized)"),
    ("10084", "CVC2 bilgisi hatalı. (Invalid CVC2)"),
    ("10201", "3D Secure doğrulaması başarısız. (3D Secure authentication failed)"),
    ("10203", "3D Secure doğrulaması tamamlanamadı. (3D Secure not completed)"),
    ("10204", "Kartınız 3D Secure desteklemiyor. (Card does not support 3D Secure)"),
    ("10000", "İşlem sırasında bir hata oluştu. Lütfen tekrar deneyin. (General transaction error)"),
    ("10001", "Geçersiz istek. Lütfen bilgilerinizi kontrol edin. (Invalid request)"),
    ("10002", "API anahtarı geçersiz. (Invalid API key)"),
    ("10003", "İşlem tutarı geçersiz. (Invalid amount)"),
    ("10004", "Para birimi desteklenmiyor. (Unsupported currency)"),
    ("10006", "İşlem limiti aşıldı. (Transaction limit exceeded)"),
    ("10007", "İşlem zaten gerçekleştirilmiş. (Duplicate transaction)"),
    ("10008", "İşlem bulunamadı. (Transaction not found)"),
    ("10009", "İade tutarı işlem tutarını aşıyor. (Refund amount exceeds transaction amount)"),
    ("10010", "İşlem iade edilemez durumda. (Transaction cannot be refunded)"),
    ("10011", "Üye işyeri bulunamadı. (Merchant not found)"),
    ("10013", "Üye işyeri aktif değil. (Merchant not active)"),
    ("10014", "Geçersiz imza. (Invalid signature)"),
    ("10015", "Geçersiz IP adresi. (Invalid IP address)"),
    ("10060", "Taksit sayısı geçersiz. (Invalid installment count)"),
    ("10061", "Kartınız taksit desteklemiyor. (Card does not support installments)"),
    ("10062", "Bu tutar için taksit yapılamaz. (Amount not eligible for installments)"),
    ("10090", "İşlem zaman aşımına uğradı. Lütfen tekrar deneyin. (Transaction timeout)"),
    ("10091", "Banka yanıt vermedi. Lütfen tekrar deneyin. (Bank timeout)"),
    ("10100", "İade işlemi başarısız. (Refund failed)"),
    ("10101", "İptal işlemi başarısız. (Cancel failed)"),
    ("10102", "İade için geç kalındı. (Refund deadline passed)"),
    ("10103", "Kısmi iade yapılamaz. (Partial refund not allowed)"),
    ("10120", "Kart bilgileri alınamadı. (Unable to retrieve card info)"),
    ("10121", "Kart BIN numarası geçersiz. (Invalid BIN number)"),
    ("10999", "Bilinmeyen hata. Lütfen tekrar deneyin. (Unknown error)"),
    ("11000", "Sistem hatası. Lütfen daha sonra tekrar deneyin. (System error)") ]

/-! ## `src/utils.py`: `get_error_message` and `format_phone` -/

/-- Embedding of `utils.get_error_message` (`src/utils.py` lines 241-249):
the table lookup `const.ERROR_CODES.get(error_code, default)` whose default
message embeds the unknown code. -/
def get_error_message (error_code : String) : String :=
  (ERROR_CODES.lookup error_code).getD ("Payment failed with error code: " ++ error_code)

/-- The character filter of `utils.format_phone`:
`c.isdigit() or c == '+'`. -/
def phoneKeep (c : Char) : Bool := c.isDigit || c == '+'

/-- Embedding of `utils.format_phone` (`src/utils.py` lines 202-227).  Empty (falsy)
input returns the fixed placeholder; otherwise all characters other than
digits and plus signs are removed; if the result does not start with a
plus sign, a leading zero gets the prefix `+9` and anything else gets the
prefix `+90`. -/
def format_phone (phone : String) : String :=
  if phone = "" then "+905000000000"
  else
    let cleaned := phone.data.filter phoneKeep
    match cleaned with
    | '+' :: rest => String.mk ('+' :: rest)
    | '0' :: rest => "+9" ++ String.mk ('0' :: rest)
    | rest => "+90" ++ String.mk rest

/-! ## Gateway responses and the reconciler
(`payment.transaction._process_notification_data`,
`src/models/payment_transaction.py` lines 300-418) -/

/-- A parsed iyzico JSON payload, as accessed through `dict.get` by the
module.  Exactly the keys the embedded code reads are modelled; a key that
is absent from the payload is `none`. -/
structure GatewayResponse where
  status : Option String := none
  paymentStatus : Option String := none
  paymentId : Option String := none
  errorCode : Option String := none
  errorMessage : Option String := none
  token : Option String := none
  tokenExpireTime : Option Int := none
  installment : Option Int := none
  cardFamily : Option String := none
  cardAssociation : Option String := none
  cardType : Option String := none
  eci : Option String := none
deriving DecidableEq, Repr

/-- The outcome a reconciliation run hands to the host transaction state
machine: `_set_done()`, `_set_error(reason)` or `_set_pending(reason)`. -/
inductive TxOutcome where
  | done
  | error (reason : String)
  | pending (reason : String)
deriving DecidableEq, Repr

/-- The values `_process_notification_data` writes on the transaction
record before classifying the status (`self.write({...})`,
`src/models/payment_transaction.py` lines 345-352). -/
structure TxMetadata where
  iyzico_installment : Int
  iyzico_card_family : Option String
  iyzico_card_association : Option String
  iyzico_card_type : Option String
  iyzico_eci : Option String
  iyzico_3ds_status : Option String
deriving DecidableEq, Repr

/-- Status extraction (line 331): `paymentStatus` from the payload when
truthy, else the `status` field, as in the expression
`notification_data.get("paymentStatus") or notification_data.get("status")`. -/
def extractPaymentStatus (nd : GatewayResponse) : Option String :=
  pyOr nd.paymentStatus nd.status

/-- Python `s.upper()`: the character-wise uppercase map (the statuses
involved are ASCII). -/
def pyUpper (s : String) : String := String.mk (s.data.map Char.toUpper)

/-- Status normalization (line 371): uppercase when the extracted status
is truthy, else the empty string. -/
def normalizeStatus (payment_status : Option String) : String :=
  match payment_status with
  | some s => if s = "" then "" else pyUpper s
  | none => ""

/-- The error reason of the `_set_error` branch (lines 384-385):
`state_message = get_error_message(error_code) if error_code else
error_message`, then `state_message or _("Payment failed.")`. -/
def errorReason (error_code error_message : Option String) : String :=
  orDefault
    (if truthy error_code then some (get_error_message (error_code.getD ""))
     else error_message)
    "Payment failed."

/-- The metadata written by `_process_notification_data` (lines 336-352):
`installment = notification_data.get("installment", 1)`; the card fields
and the ECI pass through; `iyzico_3ds_status` receives `payment_status`. -/
def reconcileMetadata (nd : GatewayResponse) : TxMetadata :=
  { iyzico_installment := nd.installment.getD 1,
    iyzico_card_family := nd.cardFamily,
    iyzico_card_association := nd.cardAssociation,
    iyzico_card_type := nd.cardType,
    iyzico_eci := nd.eci,
    iyzico_3ds_status := extractPaymentStatus nd }

/-- The classification chain of `_process_notification_data`
(lines 369-418): the normalized status is looked up in
`STATUS_MAPPING["done"]`, then `["error"]`, then `["pending"]`, then
`["draft"]`; anything else is set pending with a message that embeds the
raw status value.  The function is total: no branch raises. -/
def reconcileOutcome (nd : GatewayResponse) : TxOutcome :=
  let payment_status := extractPaymentStatus nd
  let normalized_status := normalizeStatus payment_status
  if normalized_status ∈ statusCodes "done" then
    TxOutcome.done
  else if normalized_status ∈ statusCodes "error" then
    TxOutcome.error (errorReason nd.errorCode nd.errorMessage)
  else if normalized_status ∈ statusCodes "pending" then
    TxOutcome.pending "3D Secure authentication in progress."
  else if normalized_status ∈ statusCodes "draft" then
    TxOutcome.pending "Payment initialization in progress."
  else
    TxOutcome.pending
      ("Payment status: " ++ pyStr payment_status ++ ". Please check iyzico panel.")

/-- Embedding of `payment.transaction._process_notification_data` restricted to the
iyzico branch: the pair of the outcome passed to the host state machine
and the metadata written on the record. -/
def process_notification_data (nd : GatewayResponse) : TxOutcome × TxMetadata :=
  (reconcileOutcome nd, reconcileMetadata nd)

/-! ## Bytes, UTF-8, hex and base64

Byte strings are `List Nat`; every producer below keeps elements < 256. -/

/-- UTF-8 encoding of one character (the bytes `str.encode("utf-8")`
produces for it). -/
def utf8EncodeChar (c : Char) : List Nat :=
  let n := c.toNat
  if n < 128 then [n]
  else if n < 2048 then [192 + n / 64, 128 + n % 64]
  else if n < 65536 then [224 + n / 4096, 128 + n / 64 % 64, 128 + n % 64]
  else [240 + n / 262144, 128 + n / 4096 % 64, 128 + n / 64 % 64, 128 + n % 64]

/-- UTF-8 encoding of a string, `s.encode("utf-8")`, as a byte list. -/
def utf8Encode (s : String) : List Nat :=
  s.data.flatMap utf8EncodeChar

/-- One lowercase hexadecimal digit. -/
def hexDigit (n : Nat) : Char :=
  if n < 10 then Char.ofNat (48 + n) else Char.ofNat (87 + n)

/-- Lowercase hex encoding of a byte list (`bytes.hex()` /
`hmac.hexdigest()`). -/
def toHex (bs : List Nat) : String :=
  String.mk (bs.flatMap (fun b => [hexDigit (b / 16), hexDigit (b % 16)]))

/-- The standard base64 alphabet character for a 6-bit value. -/
def b64Char (n : Nat) : Char :=
  if n < 26 then Char.ofNat (65 + n)
  else if n < 52 then Char.ofNat (97 + (n - 26))
  else if n < 62 then Char.ofNat (48 + (n - 52))
  else if n = 62 then '+'
  else '/'

/-- Base64 encoding of a byte list, three bytes to four characters, with
`=` padding — the behaviour of `base64.b64encode`. -/
def b64EncodeList : List Nat → List Char
  | [] => []
  | [b1] =>
      [b64Char (b1 / 4), b64Char (b1 % 4 * 16), '=', '=']
  | [b1, b2] =>
      [b64Char (b1 / 4), b64Char (b1 % 4 * 16 + b2 / 16), b64Char (b2 % 16 * 4), '=']
  | b1 :: b2 :: b3 :: rest =>
      b64Char (b1 / 4) :: b64Char (b1 % 4 * 16 + b2 / 16) ::
      b64Char (b2 % 16 * 4 + b3 / 64) :: b64Char (b3 % 64) :: b64EncodeList rest

/-- Base64 encoding of a byte list as a string,
`base64.b64encode(bs).decode("utf-8")`. -/
def b64Encode (bs : List Nat) : String :=
  String.mk (b64EncodeList bs)

/-- The 6-bit value of a base64 alphabet character; `none` for a character
outside the alphabet. -/
def b64CharVal (c : Char) : Option Nat :=
  if 65 ≤ c.toNat ∧ c.toNat ≤ 90 then some (c.toNat - 65)
  else if 97 ≤ c.toNat ∧ c.toNat ≤ 122 then some (c.toNat - 97 + 26)
  else if 48 ≤ c.toNat ∧ c.toNat ≤ 57 then some (c.toNat - 48 + 52)
  else if c = '+' then some 62
  else if c = '/' then some 63
  else none

/-- Strict base64 decoding (the inverse of `b64EncodeList`): four
characters to three bytes, `=` padding only in the final quartet.
Returning `some` is what "valid base64" means here. -/
def b64DecodeList : List Char → Option (List Nat)
  | [] => some []
  | c1 :: c2 :: c3 :: c4 :: rest =>
    match b64CharVal c1, b64CharVal c2 with
    | some v1, some v2 =>
      if c3 = '=' then
        if c4 = '=' ∧ rest = [] ∧ v2 % 16 = 0 then some [v1 * 4 + v2 / 16] else none
      else
        match b64CharVal c3 with
        | some v3 =>
          if c4 = '=' then
            if rest = [] ∧ v3 % 4 = 0 then
              some [v1 * 4 + v2 / 16, v2 % 16 * 16 + v3 / 4]
            else none
          else
            match b64CharVal c4, b64DecodeList rest with
            | some v4, some tail =>
                some ((v1 * 4 + v2 / 16) :: (v2 % 16 * 16 + v3 / 4) ::
                      (v3 % 4 * 64 + v4) :: tail)
            | _, _ => none
        | none => none
    | _, _ => none
  | _ => none

/-! ## SHA-256 and HMAC-SHA256 (FIPS 180-4 / RFC 2104), the model of
`hashlib.sha256` and `hmac.new(key, msg, hashlib.sha256)` -/

/-- Truncation to a 32-bit word. -/
def w32 (n : Nat) : Nat := n % 4294967296

/-- Right rotation of a 32-bit word by `k` bits. -/
def rotr32 (x k : Nat) : Nat :=
  w32 (x / 2 ^ k + x % 2 ^ k * 2 ^ (32 - k))

/-- SHA-256 small sigma 0. -/
def ssig0 (x : Nat) : Nat := (rotr32 x 7) ^^^ (rotr32 x 18) ^^^ (x / 2 ^ 3)

/-- SHA-256 small sigma 1. -/
def ssig1 (x : Nat) : Nat := (rotr32 x 17) ^^^ (rotr32 x 19) ^^^ (x / 2 ^ 10)

/-- SHA-256 big sigma 0. -/
def bsig0 (x : Nat) : Nat := (rotr32 x 2) ^^^ (rotr32 x 13) ^^^ (rotr32 x 22)

/-- SHA-256 big sigma 1. -/
def bsig1 (x : Nat) : Nat := (rotr32 x 6) ^^^ (rotr32 x 11) ^^^ (rotr32 x 25)

/-- The 64 SHA-256 round constants. -/
def sha256K : List Nat :=
  [ 1116352408, 1899447441, 3049323471, 3921009573, 961987163,
    1508970993, 2453635748, 2870763221, 3624381080, 310598401,
    607225278, 1426881987, 1925078388, 2162078206, 2614888103,
    3248222580, 3835390401, 4022224774, 264347078, 604807628,
    770255983, 1249150122, 1555081692, 1996064986, 2554220882,
    2821834349, 2952996808, 3210313671, 3336571891, 3584528711,
    113926993, 338241895, 666307205, 773529912, 1294757372,
    1396182291, 1695183700, 1986661051, 2177026350, 2456956037,
    2730485921, 2820302411, 3259730800, 3345764771, 3516065817,
    3600352804, 4094571909, 275423344, 430227734, 506948616,
    659060556, 883997877, 958139571, 1322822218, 1537002063,
    1747873779, 1955562222, 2024104815, 2227730452, 2361852424,
    2428436474, 2756734187, 3204031479, 3329325298 ]

/-- The SHA-256 initial hash value. -/
def sha256H0 : List Nat :=
  [ 1779033703, 3144134277, 1013904242, 2773480762,
    1359893119, 2600822924, 528734635, 1541459225 ]

/-- Big-endian byte serialization of a value into `k` bytes. -/
def toBytesBE : Nat → Nat → List Nat
  | 0, _ => []
  | k + 1, v => toBytesBE k (v / 256) ++ [v % 256]

/-- SHA-256 padding: append `0x80`, zeros up to 56 mod 64, then the
message length in bits as 8 big-endian bytes. -/
def sha256Pad (msg : List Nat) : List Nat :=
  let zeros := (120 - (msg.length + 1) % 64) % 64
  msg ++ [128] ++ List.replicate zeros 0 ++ toBytesBE 8 (8 * msg.length)

/-- Big-endian 32-bit words from a byte list. -/
def bytesToWords : List Nat → List Nat
  | b1 :: b2 :: b3 :: b4 :: rest =>
      (((b1 * 256 + b2) * 256 + b3) * 256 + b4) :: bytesToWords rest
  | _ => []

/-- Split a byte list into its first `n` blocks of 64 bytes. -/
def splitBlocks : Nat → List Nat → List (List Nat)
  | 0, _ => []
  | n + 1, bs => bs.take 64 :: splitBlocks n (bs.drop 64)

/-- Extend a 16-word block by `n` message-schedule words. -/
def sha256Schedule : Nat → List Nat → List Nat
  | 0, w => w
  | n + 1, w =>
      let t := w.length
      let wt := w32 (ssig1 (w.getD (t - 2) 0) + w.getD (t - 7) 0 +
                     ssig0 (w.getD (t - 15) 0) + w.getD (t - 16) 0)
      sha256Schedule n (w ++ [wt])

/-- One SHA-256 compression round on the eight-word working state. -/
def sha256Round (st : List Nat) (kt wt : Nat) : List Nat :=
  match st with
  | [a, b, c, d, e, f, g, h] =>
      let ch := (e &&& f) ^^^ ((4294967295 - e) &&& g)
      let maj := (a &&& b) ^^^ (a &&& c) ^^^ (b &&& c)
      let t1 := w32 (h + bsig1 e + ch + kt + wt)
      let t2 := w32 (bsig0 a + maj)
      [w32 (t1 + t2), a, b, c, w32 (d + t1), e, f, g]
  | st => st

/-- Process one 64-byte block into the running hash value. -/
def sha256Block (h : List Nat) (block : List Nat) : List Nat :=
  let w := sha256Schedule 48 (bytesToWords block)
  let st := (sha256K.zip w).foldl (fun st kw => sha256Round st kw.1 kw.2) h
  List.zipWith (fun a b => w32 (a + b)) h st

/-- SHA-256 digest (32 bytes) of a byte list: the model of
`hashlib.sha256(msg).digest()`. -/
def sha256 (msg : List Nat) : List Nat :=
  let padded := sha256Pad msg
  let final := (splitBlocks (padded.length / 64) padded).foldl sha256Block sha256H0
  final.flatMap (toBytesBE 4)

/-- HMAC-SHA256 (RFC 2104) digest of `msg` keyed by `key`: the model of
`hmac.new(key, msg, hashlib.sha256).digest()`; SHA-256 block size 64. -/
def hmacSha256 (key msg : List Nat) : List Nat :=
  let k0 := if 64 < key.length then sha256 key else key
  let kp := k0 ++ List.replicate (64 - k0.length) 0
  let ipad := kp.map (fun b => b ^^^ 54)
  let opad := kp.map (fun b => b ^^^ 92)
  sha256 (opad ++ sha256 (ipad ++ msg))

/-- Hex HMAC-SHA256 on strings, the model of
`hmac.new(key.encode("utf-8"), msg.encode("utf-8"),
hashlib.sha256).hexdigest()`. -/
def hmacSha256Hex (key msg : String) : String :=
  toHex (hmacSha256 (utf8Encode key) (utf8Encode msg))

set_option maxRecDepth 100000 in
/-- SHA-256 sanity anchor: the FIPS 180-4 test vector for "abc". -/
theorem sha256_abc :
    toHex (sha256 (utf8Encode "abc")) =
      "ba7816bf8f01cfea414140de5dae2223b00361a396177a9cb410ff61f20015ad" := by
  decide

set_option maxRecDepth 200000 in
/-- HMAC-SHA256 sanity anchor: the classic test vector with key "key". -/
theorem hmacSha256_vector :
    hmacSha256Hex "key" "The quick brown fox jumps over the lazy dog" =
      "f7bc83f430538424b13298e6aa6fb143ef4d59a14946175997479dbc2d1a3cd8" := by
  decide

/-! ## `utils.generate_authorization_header` (`src/utils.py` lines 68-115) -/

/-- The IYZWSv2 authorization header.  Steps as in the source:
payload = `random_key + uri_path + request_body`; signature =
`hmac.new(secret_key.encode(), payload.encode(), sha256).hexdigest()`;
authorization string
`"apiKey:{api_key}&randomKey:{random_key}&signature:{signature}"`;
base64-encode its UTF-8 bytes; prefix `"IYZWSv2 "`.  A pure function:
no side effects. -/
def generate_authorization_header
    (api_key secret_key random_key uri_path request_body : String) : String :=
  let payload := random_key ++ uri_path ++ request_body
  let signature := toHex (hmacSha256 (utf8Encode secret_key) (utf8Encode payload))
  let authorization_string :=
    "apiKey:" ++ api_key ++ "&randomKey:" ++ random_key ++ "&signature:" ++ signature
  let base64_encoded := b64Encode (utf8Encode authorization_string)
  "IYZWSv2 " ++ base64_encoded

/-! ## Exceptions and `_iyzico_make_request`
(`src/models/payment_provider.py` lines 310-416) -/

/-- The exceptions the embedded code can raise. -/
inductive PyError where
  | validationError (msg : String)
  | accessDenied (msg : String)
deriving DecidableEq, Repr

/-- The observable result of the outbound HTTP call made by
`_iyzico_make_request`: a connection failure, a timeout, a body that is
not JSON, or a parsed JSON payload. -/
inductive HttpResult where
  | connectionError
  | timeout
  | invalidJson
  | json (d : GatewayResponse)
deriving DecidableEq, Repr

/-- Embedding of `payment.provider._iyzico_make_request`, from the point where the
response is available (`src/models/payment_provider.py` lines 387-416):
`response.json()` failures and transport errors become `ValidationError`;
a parsed payload whose `status` is not success raises
`ValidationError` embedding `errorCode` (default unknown) and
`errorMessage` (default generic); only a success payload is
returned. -/
def iyzico_make_request (net : HttpResult) : Except PyError GatewayResponse :=
  match net with
  | .connectionError =>
      .error (.validationError "Could not connect to iyzico. Please try again later.")
  | .timeout =>
      .error (.validationError "iyzico request timed out. Please try again.")
  | .invalidJson =>
      .error (.validationError "Invalid response from iyzico. Please try again.")
  | .json d =>
      if d.status ≠ some "success" then
        let error_code := d.errorCode.getD "unknown"
        let error_message := d.errorMessage.getD "Unknown error"
        .error (.validationError
          ("iyzico Error (" ++ error_code ++ "): " ++ error_message))
      else
        .ok d

/-! ## `IyzicoController._verify_webhook_signature`
(`src/controllers/main.py` lines 40-94) -/

/-- Webhook signature verification.  No `X-Iyzico-Signature` header:
return `True` immediately.  Header present: compare it (via
`hmac.compare_digest`, plain equality on the values) with
`hmac.new(secret_key.encode(), token.encode(), sha256).hexdigest()`;
a mismatch raises `AccessDenied("Invalid webhook signature")`, which the
enclosing `except Exception` handler turns into
`AccessDenied("Webhook signature verification failed")`. -/
def verify_webhook_signature
    (signature_header : Option String) (token secret_key : String) :
    Except PyError Bool :=
  match signature_header with
  | none => .ok true
  | some sig =>
      let expected_signature := hmacSha256Hex secret_key token
      if sig = expected_signature then .ok true
      else .error (.accessDenied "Webhook signature verification failed")

/-! ## Token reuse in `_get_specific_rendering_values`
(`src/models/payment_transaction.py` lines 158-200) -/

/-- The two fields of the transaction record that the token-reuse logic
reads and writes: `provider_reference` (the stored checkout token) and
`iyzico_token_expire_time` (modelled as seconds on an absolute clock;
`none` when the Datetime field is unset). -/
structure TxTokenState where
  provider_reference : Option String
  iyzico_token_expire_time : Option Int
deriving DecidableEq, Repr

/-- One rendering call, from the token decision onwards.  `now` is
`fields.Datetime.now()`; `resp` is the checkout-form response
`_iyzico_create_checkout_form` would return.  Result: whether a new
checkout session was created, the resulting record state, and the token
used for the payment page.  `should_refresh` is false exactly when both
fields are set (truthy) and the recorded expiry is more than
`timedelta(minutes=5)` past `now`; on refresh the new token and
`now + timedelta(seconds=resp.tokenExpireTime default 1800)` are stored
only when the response carries a truthy token. -/
def renderTokenStep (st : TxTokenState) (now : Int) (resp : GatewayResponse) :
    Bool × TxTokenState × Option String :=
  let should_refresh :=
    match st.iyzico_token_expire_time, truthy st.provider_reference with
    | some expire, true => decide (¬ expire > now + 5 * 60)
    | _, _ => true
  if should_refresh then
    let token := resp.token
    let token_expire_seconds := resp.tokenExpireTime.getD 1800
    let st' :=
      if truthy token then
        { provider_reference := token,
          iyzico_token_expire_time := some (now + token_expire_seconds) }
      else st
    (true, st', token)
  else
    (false, st, st.provider_reference)

/-! ## Lemmas about the reconciler -/

/-- A successful `List.lookup` on a string table returns an entry of the
table. -/
theorem lookup_mem_pairs {l : List (String × String)} {k v : String}
    (h : l.lookup k = some v) : (k, v) ∈ l := by
  induction l with
  | nil => simp [List.lookup] at h
  | cons p t ih =>
    rcases p with ⟨k', v'⟩
    rw [List.lookup] at h
    by_cases hk : k = k'
    · subst hk
      simp at h
      subst h
      exact List.mem_cons_self _ _
    · have : (k == k') = false := beq_false_of_ne hk
      rw [this] at h
      exact List.mem_cons_of_mem _ (ih h)

/-- Every message of `ERROR_CODES` is non-empty, so `get_error_message`
never yields the empty string. -/
theorem get_error_message_ne_empty (c : String) : get_error_message c ≠ "" := by
  unfold get_error_message
  cases h : ERROR_CODES.lookup c with
  | none =>
    simp only [h, Option.getD]
    intro heq
    have hdata := congrArg String.data heq
    rw [String.data_append] at hdata
    have hnil := List.append_eq_nil.mp hdata
    have : ("Payment failed with error code: " : String).data ≠ [] := by decide
    exact this hnil.1
  | some m =>
    have hm : (c, m) ∈ ERROR_CODES := lookup_mem_pairs h
    have hall : ∀ p ∈ ERROR_CODES, p.2 ≠ "" := by decide
    simpa using hall (c, m) hm

/-- Evaluation of `errorReason` with a truthy error code: it resolves the code through
`ERROR_CODES`. -/
theorem errorReason_code (ec em : Option String) (h : truthy ec = true) :
    errorReason ec em = get_error_message (ec.getD "") := by
  unfold errorReason orDefault
  rw [if_pos h]
  simp [get_error_message_ne_empty]

/-- Evaluation of `errorReason` without an error code but with a truthy error message:
returns the raw message. -/
theorem errorReason_message (ec em : Option String)
    (hc : truthy ec = false) (hm : truthy em = true) :
    errorReason ec em = em.getD "" := by
  unfold errorReason orDefault
  rw [if_neg (by simp [hc])]
  cases em with
  | none => simp [truthy] at hm
  | some m =>
    simp [truthy] at hm
    simp [hm]

/-- Evaluation of `errorReason` with neither an error code nor an error message: it falls
back to the generic message. -/
theorem errorReason_generic (ec em : Option String)
    (hc : truthy ec = false) (hm : truthy em = false) :
    errorReason ec em = "Payment failed." := by
  unfold errorReason orDefault
  rw [if_neg (by simp [hc])]
  cases em with
  | none => rfl
  | some m =>
    simp [truthy] at hm
    simp [hm]

/-- The concrete code sets of the four categories the classifier
consults. -/
theorem statusCodes_eval :
    statusCodes "done" = ["SUCCESS", "success"] ∧
    statusCodes "error" = ["FAILURE", "failure"] ∧
    statusCodes "pending" = ["CALLBACK_THREEDS"] ∧
    statusCodes "draft" = ["INIT_THREEDS", "CALLBACK_THREEDS"] := by
  refine ⟨rfl, rfl, rfl, rfl⟩

/-- Reconciliation when the normalized status is a done code. -/
theorem reconcile_done (nd : GatewayResponse)
    (h : normalizeStatus (extractPaymentStatus nd) ∈ statusCodes "done") :
    (process_notification_data nd).1 = TxOutcome.done := by
  simp only [process_notification_data, reconcileOutcome]
  rw [if_pos h]

/-- Reconciliation when the normalized status is an error code and not a
done code. -/
theorem reconcile_error (nd : GatewayResponse)
    (hd : normalizeStatus (extractPaymentStatus nd) ∉ statusCodes "done")
    (he : normalizeStatus (extractPaymentStatus nd) ∈ statusCodes "error") :
    (process_notification_data nd).1 =
      TxOutcome.error (errorReason nd.errorCode nd.errorMessage) := by
  simp only [process_notification_data, reconcileOutcome]
  rw [if_neg hd, if_pos he]

/-- Reconciliation when the normalized status is a pending code and
neither a done nor an error code. -/
theorem reconcile_pending (nd : GatewayResponse)
    (hd : normalizeStatus (extractPaymentStatus nd) ∉ statusCodes "done")
    (he : normalizeStatus (extractPaymentStatus nd) ∉ statusCodes "error")
    (hp : normalizeStatus (extractPaymentStatus nd) ∈ statusCodes "pending") :
    (process_notification_data nd).1 =
      TxOutcome.pending "3D Secure authentication in progress." := by
  simp only [process_notification_data, reconcileOutcome]
  rw [if_neg hd, if_neg he, if_pos hp]

/-- Reconciliation when the normalized status matches no code set of any
category of `STATUS_MAPPING`: pending, with the raw status embedded in
the reason. -/
theorem reconcile_unmatched (nd : GatewayResponse)
    (H : ∀ p ∈ STATUS_MAPPING, normalizeStatus (extractPaymentStatus nd) ∉ p.2) :
    (process_notification_data nd).1 =
      TxOutcome.pending
        ("Payment status: " ++ pyStr (extractPaymentStatus nd) ++
         ". Please check iyzico panel.") := by
  have hd := H ("done", ["SUCCESS", "success"]) (by simp [STATUS_MAPPING])
  have he := H ("error", ["FAILURE", "failure"]) (by simp [STATUS_MAPPING])
  have hp := H ("pending", ["CALLBACK_THREEDS"]) (by simp [STATUS_MAPPING])
  have hdr := H ("draft", ["INIT_THREEDS", "CALLBACK_THREEDS"]) (by simp [STATUS_MAPPING])
  simp only [process_notification_data, reconcileOutcome]
  rw [if_neg (statusCodes_eval.1 ▸ hd),
      if_neg (statusCodes_eval.2.1 ▸ he),
      if_neg (statusCodes_eval.2.2.1 ▸ hp),
      if_neg (statusCodes_eval.2.2.2 ▸ hdr)]

/-! ## Claim C1 -/

/-- C1: reconciliation takes the status preferring `paymentStatus` over
`status`, normalizes it to uppercase, and classifies it by checking the
done codes first, then the error codes, then the pending codes; a
response whose normalized status matches no mapped code is classified as
pending with a reason string containing the raw status value, and
classification never raises (the reconciler is a total function).  In
particular: `paymentStatus = "SUCCESS"` yields done;
`paymentStatus = "FAILURE"` with `errorCode = "10051"` yields error with
a reason mentioning insufficient funds; `"CALLBACK_THREEDS"` yields
pending; `"BOGUS_STATUS"` yields pending with a reason containing
`"BOGUS_STATUS"`. -/
theorem C1_reconciler_classification :
    (∀ nd : GatewayResponse,
      (truthy nd.paymentStatus = true → extractPaymentStatus nd = nd.paymentStatus) ∧
      (truthy nd.paymentStatus = false → extractPaymentStatus nd = nd.status) ∧
      (∀ s : String, s ≠ "" → normalizeStatus (some s) = pyUpper s) ∧
      (normalizeStatus (extractPaymentStatus nd) ∈ statusCodes "done" →
        (process_notification_data nd).1 = TxOutcome.done) ∧
      (normalizeStatus (extractPaymentStatus nd) ∉ statusCodes "done" →
       normalizeStatus (extractPaymentStatus nd) ∈ statusCodes "error" →
        ∃ r, (process_notification_data nd).1 = TxOutcome.error r) ∧
      (normalizeStatus (extractPaymentStatus nd) ∉ statusCodes "done" →
       normalizeStatus (extractPaymentStatus nd) ∉ statusCodes "error" →
       normalizeStatus (extractPaymentStatus nd) ∈ statusCodes "pending" →
        ∃ r, (process_notification_data nd).1 = TxOutcome.pending r) ∧
      ((∀ p ∈ STATUS_MAPPING, normalizeStatus (extractPaymentStatus nd) ∉ p.2) →
        (process_notification_data nd).1 =
          TxOutcome.pending
            ("Payment status: " ++ pyStr (extractPaymentStatus nd) ++
             ". Please check iyzico panel."))) ∧
    (process_notification_data { paymentStatus := some "SUCCESS" }).1 = TxOutcome.done ∧
    (process_notification_data
      { paymentStatus := some "FAILURE", errorCode := some "10051" }).1 =
      TxOutcome.error "Kartınızda yetersiz bakiye bulunmaktadır. (Insufficient funds)" ∧
    (process_notification_data { paymentStatus := some "CALLBACK_THREEDS" }).1 =
      TxOutcome.pending "3D Secure authentication in progress." ∧
    (process_notification_data { paymentStatus := some "BOGUS_STATUS" }).1 =
      TxOutcome.pending ("Payment status: " ++ "BOGUS_STATUS" ++ ". Please check iyzico panel.") := by
  refine ⟨fun nd => ⟨?_, ?_, ?_, ?_, ?_, ?_, ?_⟩, by decide, by decide, by decide, by decide⟩
  · intro h
    simp [extractPaymentStatus, pyOr, h]
  · intro h
    simp [extractPaymentStatus, pyOr, h]
  · intro s hs
    simp [normalizeStatus, hs]
  · exact reconcile_done nd
  · intro hd he
    exact ⟨_, reconcile_error nd hd he⟩
  · intro hd he hp
    exact ⟨_, reconcile_pending nd hd he hp⟩
  · exact reconcile_unmatched nd

/-- C1 witness: the general part of the classification applied at the
concrete `SUCCESS` response. -/
theorem C1_witness :
    (process_notification_data { paymentStatus := some "SUCCESS" }).1 = TxOutcome.done :=
  ((C1_reconciler_classification.1 { paymentStatus := some "SUCCESS" }).2.2.2.1) (by decide)

/-! ## Claim C2 -/

/-- C2 counterexample: the status string `CALLBACK_THREEDS` appears in
the code sets of two different categories of `STATUS_MAPPING` (`draft`
and `pending`), so it is not associated with exactly one category. -/
theorem C2_counterexample :
    "CALLBACK_THREEDS" ∈ statusCodes "draft" ∧
    "CALLBACK_THREEDS" ∈ statusCodes "pending" ∧
    ("draft", statusCodes "draft") ∈ STATUS_MAPPING ∧
    ("pending", statusCodes "pending") ∈ STATUS_MAPPING ∧
    "draft" ≠ "pending" := by
  decide

/-- C2 (amended): in `STATUS_MAPPING`, `CALLBACK_THREEDS` appears in both
the `draft` and the `pending` code sets, and `FAILURE`/`failure` appear
in both the `cancel` and the `error` code sets, so a status string is not
always unique to a category; however the three code sets the classifier
checks for distinct outcomes (`done`, `error`, `pending`) are pairwise
disjoint, and any status string that matches no code set of any category
defaults to the pending outcome. -/
theorem C2_status_mapping_overlaps :
    "CALLBACK_THREEDS" ∈ statusCodes "draft" ∧
    "CALLBACK_THREEDS" ∈ statusCodes "pending" ∧
    "FAILURE" ∈ statusCodes "cancel" ∧
    "FAILURE" ∈ statusCodes "error" ∧
    (statusCodes "done").Disjoint (statusCodes "error") ∧
    (statusCodes "done").Disjoint (statusCodes "pending") ∧
    (statusCodes "error").Disjoint (statusCodes "pending") ∧
    (∀ nd : GatewayResponse,
      (∀ p ∈ STATUS_MAPPING, normalizeStatus (extractPaymentStatus nd) ∉ p.2) →
      ∃ r, (process_notification_data nd).1 = TxOutcome.pending r) := by
  refine ⟨by decide, by decide, by decide, by decide, ?_, ?_, ?_, ?_⟩
  · intro a h1 h2
    rw [statusCodes_eval.1] at h1
    rw [statusCodes_eval.2.1] at h2
    rcases List.mem_pair.mp h1 with rfl | rfl <;> simp at h2
  · intro a h1 h2
    rw [statusCodes_eval.1] at h1
    rw [statusCodes_eval.2.2.1] at h2
    rcases List.mem_pair.mp h1 with rfl | rfl <;> simp at h2
  · intro a h1 h2
    rw [statusCodes_eval.2.1] at h1
    rw [statusCodes_eval.2.2.1] at h2
    rcases List.mem_pair.mp h1 with rfl | rfl <;> simp at h2
  · intro nd H
    exact ⟨_, reconcile_unmatched nd H⟩

/-- C2 witness: disjointness of the done and error code sets applied at
the concrete element `SUCCESS`. -/
theorem C2_witness :
    "SUCCESS" ∈ statusCodes "done" ∧ "SUCCESS" ∉ statusCodes "error" :=
  ⟨by decide, fun h => C2_status_mapping_overlaps.2.2.2.2.1 (by decide) h⟩

/-! ## Claim C3 -/

/-- C3 counterexample: a notification carrying `installment = 0` (a
non-positive value) is written to the transaction metadata as `0`, not
coerced to `1` as the claim states. -/
theorem C3_counterexample :
    (process_notification_data { installment := some 0 }).2.iyzico_installment = 0 ∧
    (process_notification_data { installment := some 0 }).2.iyzico_installment ≠ 1 := by
  decide

/-- C3 (amended): the installment count written to the transaction
metadata equals 1 exactly when the `installment` field is absent; when
the field is present its value passes through unmodified, including a
non-positive value (installment 6 yields metadata installment 6,
installment 0 yields 0); card family, card association, card type, ECI,
and the 3DS status (the extracted payment status) pass through
unmodified when present. -/
theorem C3_metadata_extraction (nd : GatewayResponse) :
    (nd.installment = none →
      (process_notification_data nd).2.iyzico_installment = 1) ∧
    (∀ v : Int, nd.installment = some v →
      (process_notification_data nd).2.iyzico_installment = v) ∧
    (process_notification_data { nd with installment := some 6 }).2.iyzico_installment = 6 ∧
    (process_notification_data nd).2.iyzico_card_family = nd.cardFamily ∧
    (process_notification_data nd).2.iyzico_card_association = nd.cardAssociation ∧
    (process_notification_data nd).2.iyzico_card_type = nd.cardType ∧
    (process_notification_data nd).2.iyzico_eci = nd.eci ∧
    (truthy nd.paymentStatus = true →
      (process_notification_data nd).2.iyzico_3ds_status = nd.paymentStatus) := by
  refine ⟨?_, ?_, ?_, rfl, rfl, rfl, rfl, ?_⟩
  · intro h
    simp [process_notification_data, reconcileMetadata, h]
  · intro v h
    simp [process_notification_data, reconcileMetadata, h]
  · simp [process_notification_data, reconcileMetadata]
  · intro h
    simp [process_notification_data, reconcileMetadata, extractPaymentStatus, pyOr, h]

/-- C3 witness: the amended theorem applied at a concrete response with
installment 6. -/
theorem C3_witness :
    (process_notification_data { installment := some 6 }).2.iyzico_installment = 6 :=
  (C3_metadata_extraction { installment := some 6 }).2.1 6 rfl

/-! ## Claim C6 -/

/-- C6: when reconciliation classifies a response as error, the reason is
derived as follows: a truthy `errorCode` is resolved through the static
`ERROR_CODES` table (`get_error_message`); otherwise a truthy raw
`errorMessage` is used; if both are absent (falsy), the generic
`"Payment failed."` message is used. -/
theorem C6_error_reason_derivation (nd : GatewayResponse)
    (hd : normalizeStatus (extractPaymentStatus nd) ∉ statusCodes "done")
    (he : normalizeStatus (extractPaymentStatus nd) ∈ statusCodes "error") :
    (truthy nd.errorCode = true →
      (process_notification_data nd).1 =
        TxOutcome.error (get_error_message (nd.errorCode.getD ""))) ∧
    (truthy nd.errorCode = false → truthy nd.errorMessage = true →
      (process_notification_data nd).1 =
        TxOutcome.error (nd.errorMessage.getD "")) ∧
    (truthy nd.errorCode = false → truthy nd.errorMessage = false →
      (process_notification_data nd).1 = TxOutcome.error "Payment failed.") := by
  refine ⟨?_, ?_, ?_⟩
  · intro hc
    rw [reconcile_error nd hd he, errorReason_code _ _ hc]
  · intro hc hm
    rw [reconcile_error nd hd he, errorReason_message _ _ hc hm]
  · intro hc hm
    rw [reconcile_error nd hd he, errorReason_generic _ _ hc hm]

/-- C6 witness: the error-reason derivation applied at a concrete
`FAILURE` response carrying error code 10051. -/
theorem C6_witness :
    (process_notification_data
      { paymentStatus := some "FAILURE", errorCode := some "10051" }).1 =
      TxOutcome.error (get_error_message "10051") :=
  (C6_error_reason_derivation
    { paymentStatus := some "FAILURE", errorCode := some "10051" }
    (by decide) (by decide)).1 (by decide)

/-! ## Claim C4 -/

/-- C4: for every choice of `api_key`, `secret_key`, `random_key`,
`uri_path`, `request_body`, the signer returns exactly the string
`"IYZWSv2 "` followed by the base64 encoding of
`"apiKey:" ++ api_key ++ "&randomKey:" ++ random_key ++ "&signature:" ++ s`,
where `s` is the lowercase hex encoding of HMAC-SHA256 keyed by
`secret_key` over the message `random_key ++ uri_path ++ request_body`.
The embedding is a pure function, so the signer has no side effects and
is deterministic. -/
theorem C4_authorization_header (api_key secret_key random_key uri_path request_body : String) :
    generate_authorization_header api_key secret_key random_key uri_path request_body =
      "IYZWSv2 " ++
        b64Encode (utf8Encode
          ("apiKey:" ++ api_key ++ "&randomKey:" ++ random_key ++ "&signature:" ++
            toHex (hmacSha256 (utf8Encode secret_key)
              (utf8Encode (random_key ++ uri_path ++ request_body))))) := rfl

/-! ## Claim C7 -/

/-- C7: on a rendering call, if a stored token exists
(`provider_reference` truthy) and the recorded expiry is more than 5
minutes after the current time, the stored token is reused and no new
checkout session is created; otherwise a new session is created and,
when its response carries a token, that token and the newly computed
expiry (`now` plus the response `tokenExpireTime`, defaulting to 1800
seconds) replace the stored values. -/
theorem C7_token_reuse (st : TxTokenState) (now : Int) (resp : GatewayResponse) :
    (∀ exp : Int, st.iyzico_token_expire_time = some exp →
      truthy st.provider_reference = true → exp > now + 5 * 60 →
      renderTokenStep st now resp = (false, st, st.provider_reference)) ∧
    ((truthy st.provider_reference = false ∨ st.iyzico_token_expire_time = none ∨
      (∃ exp : Int, st.iyzico_token_expire_time = some exp ∧ ¬ exp > now + 5 * 60)) →
      ∀ t : String, resp.token = some t → t ≠ "" →
      renderTokenStep st now resp =
        (true,
         { provider_reference := some t,
           iyzico_token_expire_time := some (now + resp.tokenExpireTime.getD 1800) },
         some t)) := by
  constructor
  · intro exp hexp htr hgt
    have hdec : decide (¬ exp > now + 5 * 60) = false := by
      simp only [decide_eq_false_iff_not, Decidable.not_not]
      omega
    simp only [renderTokenStep, hexp, htr]
    rw [hdec]
    simp
  · intro hcond t ht htne
    have htt : truthy resp.token = true := by simp [ht, truthy, htne]
    have hrefresh :
        (match st.iyzico_token_expire_time, truthy st.provider_reference with
         | some expire, true => decide (¬ expire > now + 5 * 60)
         | _, _ => true) = true := by
      rcases hcond with hf | hn | ⟨exp, hexp, hle⟩
      · cases h : st.iyzico_token_expire_time <;> simp [hf]
      · simp [hn]
      · rw [hexp]
        cases htr : truthy st.provider_reference
        · simp
        · simp only [decide_eq_true_eq]
          omega
    simp only [renderTokenStep]
    rw [hrefresh]
    rw [ht]
    simp [truthy, htne]

/-- C7 witness: a transaction with no stored token gets a new session
whose token and computed expiry are stored. -/
theorem C7_witness :
    renderTokenStep ⟨none, none⟩ 0 { token := some "T1", tokenExpireTime := some 1800 } =
      (true, ⟨some "T1", some ((0 : Int) + 1800)⟩, some "T1") :=
  (C7_token_reuse ⟨none, none⟩ 0 { token := some "T1", tokenExpireTime := some 1800 }).2
    (Or.inl rfl) "T1" rfl (by decide)

/-! ## Claim C9 -/

/-- C9: webhook signature verification returns `True` for every request
without an `X-Iyzico-Signature` header; it raises `AccessDenied` exactly
when a header is present and differs from the hex HMAC-SHA256 of the
callback token keyed by the provider secret key; a matching header also
returns `True`. -/
theorem C9_webhook_signature (hdr : Option String) (token secret_key : String) :
    verify_webhook_signature none token secret_key = Except.ok true ∧
    ((∃ e, verify_webhook_signature hdr token secret_key = Except.error e) ↔
      ∃ sig, hdr = some sig ∧ sig ≠ hmacSha256Hex secret_key token) ∧
    (∀ sig, hdr = some sig → sig = hmacSha256Hex secret_key token →
      verify_webhook_signature hdr token secret_key = Except.ok true) ∧
    (∀ sig, hdr = some sig → sig ≠ hmacSha256Hex secret_key token →
      verify_webhook_signature hdr token secret_key =
        Except.error (PyError.accessDenied "Webhook signature verification failed")) := by
  refine ⟨rfl, ?_, ?_, ?_⟩
  · constructor
    · rintro ⟨e, he⟩
      cases hdr with
      | none => simp [verify_webhook_signature] at he
      | some sig =>
        refine ⟨sig, rfl, ?_⟩
        intro heq
        rw [verify_webhook_signature, if_pos heq] at he
        cases he
    · rintro ⟨sig, rfl, hne⟩
      rw [verify_webhook_signature, if_neg hne]
      exact ⟨_, rfl⟩
  · rintro sig rfl heq
    rw [verify_webhook_signature, if_pos heq]
  · rintro sig rfl hne
    rw [verify_webhook_signature, if_neg hne]

/-- C9 witness: verification at a concrete token and secret, once with no
header and once with the matching header. -/
theorem C9_witness :
    verify_webhook_signature none "tok123" "sk" = Except.ok true ∧
    verify_webhook_signature (some (hmacSha256Hex "sk" "tok123")) "tok123" "sk" =
      Except.ok true :=
  ⟨(C9_webhook_signature none "tok123" "sk").1,
   (C9_webhook_signature (some (hmacSha256Hex "sk" "tok123")) "tok123" "sk").2.2.1
     (hmacSha256Hex "sk" "tok123") rfl rfl⟩

/-! ## Claim C10 -/

/-- C10: `_iyzico_make_request` returns a payload only when its `status`
equals `"success"`; a parsed payload with any other status raises
`ValidationError` embedding the payload `errorCode` (default `unknown`)
and `errorMessage` (default `Unknown error`); connection failure, timeout
and a non-JSON body likewise raise `ValidationError`. -/
theorem C10_make_request (net : HttpResult) (d : GatewayResponse) :
    (iyzico_make_request net = Except.ok d → d.status = some "success") ∧
    (net = HttpResult.json d → d.status ≠ some "success" →
      iyzico_make_request net =
        Except.error (PyError.validationError
          ("iyzico Error (" ++ d.errorCode.getD "unknown" ++ "): " ++
           d.errorMessage.getD "Unknown error"))) ∧
    iyzico_make_request HttpResult.connectionError =
      Except.error (PyError.validationError
        "Could not connect to iyzico. Please try again later.") ∧
    iyzico_make_request HttpResult.timeout =
      Except.error (PyError.validationError "iyzico request timed out. Please try again.") ∧
    iyzico_make_request HttpResult.invalidJson =
      Except.error (PyError.validationError "Invalid response from iyzico. Please try again.") := by
  refine ⟨?_, ?_, rfl, rfl, rfl⟩
  · intro h
    cases net with
    | connectionError => cases h
    | timeout => cases h
    | invalidJson => cases h
    | json d' =>
      rw [iyzico_make_request] at h
      by_cases hs : d'.status = some "success"
      · rw [if_neg (by simpa using hs)] at h
        cases h
        exact hs
      · rw [if_pos (by simpa using hs)] at h
        cases h
  · rintro rfl hs
    rw [iyzico_make_request, if_pos (by simpa using hs)]

/-- C10 witness: a concrete failure-status payload raises
`ValidationError` embedding its error code and message. -/
theorem C10_witness :
    iyzico_make_request (HttpResult.json
      { status := some "failure", errorCode := some "10051",
        errorMessage := some "Insufficient funds" }) =
      Except.error (PyError.validationError
        ("iyzico Error (" ++ "10051" ++ "): " ++ "Insufficient funds")) :=
  (C10_make_request (HttpResult.json
      { status := some "failure", errorCode := some "10051",
        errorMessage := some "Insufficient funds" })
    { status := some "failure", errorCode := some "10051",
      errorMessage := some "Insufficient funds" }).2.1 rfl (by decide)

/-! ## Claim C8 -/

/-- C8 counterexample: `format_phone` keeps every plus sign, not only a
leading one.  On input `"1+2"` the claim (strip everything except digits
and a leading plus) would give `"+9012"`, but the function keeps the
inner plus and returns `"+901+2"`. -/
theorem C8_counterexample :
    format_phone "1+2" = "+901+2" ∧ format_phone "1+2" ≠ "+9012" := by
  decide

/-- C8 (amended): `format_phone` strips all characters except digits and
plus signs (a plus is kept wherever it occurs, not only in leading
position); if the stripped result has no leading plus, the fixed country
prefix is prepended — a leading `0` is replaced with the fixed `+90`
prefix (the code prepends `+9` before the zero, which is the same
string), otherwise `+90` is prepended directly; the empty input yields
the fixed placeholder `+905000000000`, and
`format_phone "05551234567" = "+905551234567"`. -/
theorem C8_phone_formatting (phone : String) (hne : phone ≠ "") :
    format_phone "" = "+905000000000" ∧
    format_phone "05551234567" = "+905551234567" ∧
    (∀ r : List Char, phone.data.filter phoneKeep = '+' :: r →
      format_phone phone = String.mk ('+' :: r)) ∧
    (∀ r : List Char, phone.data.filter phoneKeep = '0' :: r →
      format_phone phone = "+90" ++ String.mk r) ∧
    (∀ (c : Char) (r : List Char), phone.data.filter phoneKeep = c :: r →
      c ≠ '+' → c ≠ '0' → format_phone phone = "+90" ++ String.mk (c :: r)) ∧
    (phone.data.filter phoneKeep = [] → format_phone phone = "+90") := by
  refine ⟨by decide, by decide, ?_, ?_, ?_, ?_⟩
  · intro r h
    simp only [format_phone, if_neg hne]
    rw [h]
    rfl
  · intro r h
    simp only [format_phone, if_neg hne]
    rw [h]
    rfl
  · intro c r h hc1 hc2
    simp only [format_phone, if_neg hne]
    rw [h]
    split
    · next heq => exact absurd (List.cons.inj heq).1 hc1
    · next heq => exact absurd (List.cons.inj heq).1 hc2
    · rfl
  · intro h
    simp only [format_phone, if_neg hne]
    rw [h]
    rfl

/-- C8 witness: the amended theorem applied at the concrete Turkish
number of the repository test suite. -/
theorem C8_witness :
    format_phone "05551234567" = "+905551234567" :=
  (C8_phone_formatting "05551234567" (by decide)).2.1

/-! ## Lemmas for the base64 round trip -/

/-- Every Unicode scalar value is below 1114112. -/
theorem char_toNat_lt (c : Char) : c.toNat < 1114112 := by
  rcases c.valid with h | ⟨_, h2⟩
  · exact Nat.lt_trans h (by norm_num)
  · exact h2

/-- UTF-8 encoding produces bytes below 256. -/
theorem utf8EncodeChar_lt (c : Char) : ∀ b ∈ utf8EncodeChar c, b < 256 := by
  have hc := char_toNat_lt c
  intro b hb
  simp only [utf8EncodeChar] at hb
  split_ifs at hb with h1 h2 h3 <;> simp at hb <;> omega

/-- Every byte of a UTF-8 encoded string is below 256. -/
theorem utf8Encode_lt (s : String) : ∀ b ∈ utf8Encode s, b < 256 := by
  intro b hb
  rw [utf8Encode, List.mem_flatMap] at hb
  rcases hb with ⟨c, _, hbc⟩
  exact utf8EncodeChar_lt c b hbc

/-- Decoding a base64 alphabet character recovers its 6-bit value. -/
theorem b64CharVal_b64Char : ∀ n, n < 64 → b64CharVal (b64Char n) = some n := by
  decide

/-- No base64 alphabet character is the padding character. -/
theorem b64Char_ne_pad : ∀ n, n < 64 → b64Char n ≠ '=' := by
  decide

/-- The strict decoder inverts the encoder on byte lists (all elements
below 256): encoding and then decoding gives back the input, and in
particular the encoder output is valid base64. -/
theorem b64DecodeList_b64EncodeList (bs : List Nat) (h : ∀ b ∈ bs, b < 256) :
    b64DecodeList (b64EncodeList bs) = some bs := by
  induction bs using b64EncodeList.induct with
  | case1 => rfl
  | case2 b1 =>
    have h1 : b1 < 256 := h b1 (by simp)
    have e1 : b64CharVal (b64Char (b1 / 4)) = some (b1 / 4) :=
      b64CharVal_b64Char _ (by omega)
    have e2 : b64CharVal (b64Char (b1 % 4 * 16)) = some (b1 % 4 * 16) :=
      b64CharVal_b64Char _ (by omega)
    simp only [b64EncodeList, b64DecodeList, e1, e2]
    have hz : b1 % 4 * 16 % 16 = 0 := by omega
    simp [hz]
    omega
  | case3 b1 b2 =>
    have h1 : b1 < 256 := h b1 (by simp)
    have h2 : b2 < 256 := h b2 (by simp)
    have e1 : b64CharVal (b64Char (b1 / 4)) = some (b1 / 4) :=
      b64CharVal_b64Char _ (by omega)
    have e2 : b64CharVal (b64Char (b1 % 4 * 16 + b2 / 16)) =
        some (b1 % 4 * 16 + b2 / 16) := b64CharVal_b64Char _ (by omega)
    have e3 : b64CharVal (b64Char (b2 % 16 * 4)) = some (b2 % 16 * 4) :=
      b64CharVal_b64Char _ (by omega)
    simp only [b64EncodeList, b64DecodeList, e1, e2]
    rw [if_neg (b64Char_ne_pad _ (by omega))]
    simp only [e3]
    have hz : b2 % 16 * 4 % 4 = 0 := by omega
    simp [hz]
    omega
  | case4 b1 b2 b3 rest ih =>
    have h1 : b1 < 256 := h b1 (by simp)
    have h2 : b2 < 256 := h b2 (by simp)
    have h3 : b3 < 256 := h b3 (by simp)
    have hrest : ∀ b ∈ rest, b < 256 := fun b hb => h b (by simp [hb])
    have e1 : b64CharVal (b64Char (b1 / 4)) = some (b1 / 4) :=
      b64CharVal_b64Char _ (by omega)
    have e2 : b64CharVal (b64Char (b1 % 4 * 16 + b2 / 16)) =
        some (b1 % 4 * 16 + b2 / 16) := b64CharVal_b64Char _ (by omega)
    have e3 : b64CharVal (b64Char (b2 % 16 * 4 + b3 / 64)) =
        some (b2 % 16 * 4 + b3 / 64) := b64CharVal_b64Char _ (by omega)
    have e4 : b64CharVal (b64Char (b3 % 64)) = some (b3 % 64) :=
      b64CharVal_b64Char _ (by omega)
    simp only [b64EncodeList, b64DecodeList, e1, e2]
    rw [if_neg (b64Char_ne_pad _ (by omega))]
    simp only [e3]
    rw [if_neg (b64Char_ne_pad _ (by omega))]
    simp only [e4, ih hrest]
    simp
    omega

/-- The authorization string rewritten so that `apiKey:`, `randomKey:`
and `signature:` appear as consecutive markers in order. -/
theorem auth_string_order (a r s : String) :
    "apiKey:" ++ a ++ "&randomKey:" ++ r ++ "&signature:" ++ s =
      "apiKey:" ++ (a ++ "&") ++ "randomKey:" ++ (r ++ "&") ++ "signature:" ++ s := by
  have h1 : ("&randomKey:" : String) = "&" ++ "randomKey:" := by decide
  have h2 : ("&signature:" : String) = "&" ++ "signature:" := by decide
  rw [h1, h2]
  simp [String.append_assoc]

/-! ## Claim C5 -/

/-- C5: for every input, the signer output is the fixed scheme prefix
`"IYZWSv2 "` followed by a remainder that is valid base64 (the strict
decoder accepts it), and decoding the remainder recovers the UTF-8 bytes
of the authorization string, in which the markers `apiKey:`,
`randomKey:` and `signature:` occur in that order. -/
theorem C5_header_roundtrip (api_key secret_key random_key uri_path request_body : String) :
    ∃ rest x y z,
      generate_authorization_header api_key secret_key random_key uri_path request_body =
        "IYZWSv2 " ++ rest ∧
      b64DecodeList rest.data =
        some (utf8Encode ("apiKey:" ++ x ++ "randomKey:" ++ y ++ "signature:" ++ z)) := by
  refine ⟨b64Encode (utf8Encode ("apiKey:" ++ api_key ++ "&randomKey:" ++ random_key ++
      "&signature:" ++ toHex (hmacSha256 (utf8Encode secret_key)
        (utf8Encode (random_key ++ uri_path ++ request_body))))),
    api_key ++ "&", random_key ++ "&",
    toHex (hmacSha256 (utf8Encode secret_key)
      (utf8Encode (random_key ++ uri_path ++ request_body))), rfl, ?_⟩
  rw [← auth_string_order]
  exact b64DecodeList_b64EncodeList _ (utf8Encode_lt _)
